import Mathlib

/-!
# Verification of the booking/scheduling backend

Shallow embedding of the `appserver` package (calendar-grid generator,
persistence schema, account endpoints, session dependencies) together with
theorems settling the specification claims C1–C10.

Machine conventions: Python `int` values that the code only ever uses as
non-negative (years, months, days, ids) are embedded as `Nat`; timestamps
(seconds since the epoch) as `Int`; Python exceptions as explicit
`Except` error values.
-/

instance exceptDecEq {ε α : Type} [DecidableEq ε] [DecidableEq α] :
    DecidableEq (Except ε α)
  | .ok a, .ok b =>
    if h : a = b then .isTrue (by rw [h]) else .isFalse (fun hh => h (Except.ok.inj hh))
  | .ok _, .error _ => .isFalse (fun hh => Except.noConfusion hh)
  | .error _, .ok _ => .isFalse (fun hh => Except.noConfusion hh)
  | .error e, .error f =>
    if h : e = f then .isTrue (by rw [h]) else .isFalse (fun hh => h (Except.error.inj hh))

/-- A Python `datetime.date` value: `date(year, month, day)`. The
constructor validity check is in `date_mk` below. -/
structure PyDate where
  year : Nat
  month : Nat
  day : Nat
deriving DecidableEq, Repr

/-- Python exception kinds raised by the `datetime` library: `ValueError`
from the `date` constructor, `OverflowError` from date arithmetic leaving
the representable range. -/
inductive PyError where
  | valueError
  | overflowError
deriving DecidableEq, Repr

/-- Gregorian leap-year test, as Python `calendar.isleap` / the `datetime`
module use it. -/
def isLeapYear (y : Nat) : Bool :=
  (y % 4 == 0 && y % 100 != 0) || (y % 400 == 0)

/-- Number of days in month `m` of year `y` (for `1 ≤ m ≤ 12`), the
`_days_in_month` table of Python `datetime`. -/
def daysInMonth (y m : Nat) : Nat :=
  if m == 2 then (if isLeapYear y then 29 else 28)
  else if m == 4 || m == 6 || m == 9 || m == 11 then 30
  else 31

/-- Days in all years strictly before year `y` (proleptic Gregorian),
Python `datetime._days_before_year`. -/
def daysBeforeYear (y : Nat) : Nat :=
  let n := y - 1
  n * 365 + n / 4 - n / 100 + n / 400

/-- Days in year `y` strictly before month `m`, Python
`datetime._days_before_month`. -/
def daysBeforeMonth (y m : Nat) : Nat :=
  ((List.range (m - 1)).map (fun i => daysInMonth y (i + 1))).sum

/-- Python `date.toordinal()`: day 1 is 0001-01-01. -/
def toOrdinal (d : PyDate) : Nat :=
  daysBeforeYear d.year + daysBeforeMonth d.year d.month + d.day

/-- Python `date.weekday()`: 0 = Monday … 6 = Sunday. 0001-01-01
(ordinal 1) is a Monday. -/
def pyWeekday (d : PyDate) : Nat :=
  (toOrdinal d + 6) % 7

/-- The `datetime.date(year, month, day)` constructor: raises `ValueError`
unless `MINYEAR (1) ≤ year ≤ MAXYEAR (9999)`, `1 ≤ month ≤ 12` and
`1 ≤ day ≤` days in that month. -/
def date_mk (y m d : Nat) : Except PyError PyDate :=
  if 1 ≤ y ∧ y ≤ 9999 ∧ 1 ≤ m ∧ m ≤ 12 ∧ 1 ≤ d ∧ d ≤ daysInMonth y m then
    .ok ⟨y, m, d⟩
  else
    .error .valueError

/-- `some_date - timedelta(days=1)` on a valid date: step back one day;
raises `OverflowError` below 0001-01-01 (`date.fromordinal(0)` is out of
range). -/
def dateSubOneDay (d : PyDate) : Except PyError PyDate :=
  if d.day > 1 then .ok ⟨d.year, d.month, d.day - 1⟩
  else if d.month > 1 then .ok ⟨d.year, d.month - 1, daysInMonth d.year (d.month - 1)⟩
  else if d.year > 1 then .ok ⟨d.year - 1, 12, 31⟩
  else .error .overflowError

/-- `appserver.libs.datetime.calendar.get_start_weekday_of_month`:
`date(year, month, 1).weekday()` (0 = Monday … 6 = Sunday). -/
def get_start_weekday_of_month (year month : Nat) : Except PyError Nat :=
  match date_mk year month 1 with
  | .error e => .error e
  | .ok result => .ok (pyWeekday result)

/-- `appserver.libs.datetime.calendar.get_last_day_of_month`: build the
first day of the following month (January of the next year when
`month == 12`, otherwise `date(year, month + 1, 1)`), subtract one day and
return its `.day`. -/
def get_last_day_of_month (year month : Nat) : Except PyError Nat :=
  match (if month == 12 then date_mk (year + 1) 1 1 else date_mk year (month + 1) 1) with
  | .error e => .error e
  | .ok next_month =>
    match dateSubOneDay next_month with
    | .error e => .error e
    | .ok result => .ok result.day

/-- `appserver.libs.datetime.calendar.get_range_days_of_month`: rebase the
Monday-indexed start weekday via `(start_weekday + 1) % 7`, emit that many
`0` padding entries, then the day numbers `1 .. last_day`. -/
def get_range_days_of_month (year month : Nat) : Except PyError (List Nat) :=
  match get_start_weekday_of_month year month with
  | .error e => .error e
  | .ok start_weekday =>
    match get_last_day_of_month year month with
    | .error e => .error e
    | .ok last_day =>
      let start_weekday := (start_weekday + 1) % 7
      .ok (List.replicate start_weekday 0 ++ (List.range last_day).map (· + 1))

/-- Number of leading zero entries of a grid (grid days are positive, so
this counts exactly the padding prefix). -/
def leadingZeros (g : List Nat) : Nat :=
  (g.takeWhile (· == 0)).length

lemma daysInMonth_pos (y m : Nat) : 1 ≤ daysInMonth y m := by
  unfold daysInMonth
  split
  · split <;> omega
  · split <;> omega

lemma date_mk_first_ok (y m : Nat) (h1 : 1 ≤ y) (h2 : y ≤ 9999)
    (h3 : 1 ≤ m) (h4 : m ≤ 12) : date_mk y m 1 = .ok ⟨y, m, 1⟩ := by
  unfold date_mk
  rw [if_pos ⟨h1, h2, h3, h4, le_refl 1, daysInMonth_pos y m⟩]

lemma get_start_ok (y m : Nat) (h1 : 1 ≤ y) (h2 : y ≤ 9999)
    (h3 : 1 ≤ m) (h4 : m ≤ 12) :
    get_start_weekday_of_month y m = .ok (pyWeekday ⟨y, m, 1⟩) := by
  unfold get_start_weekday_of_month
  rw [date_mk_first_ok y m h1 h2 h3 h4]

/-- The value `get_last_day_of_month` computes on a success path. -/
def lastDayValue (y m : Nat) : Nat :=
  if m == 12 then 31 else daysInMonth y m

lemma get_last_ok (y m : Nat) (h1 : 1 ≤ y) (h2 : y ≤ 9998)
    (h3 : 1 ≤ m) (h4 : m ≤ 12) :
    get_last_day_of_month y m = .ok (lastDayValue y m) := by
  unfold get_last_day_of_month lastDayValue
  by_cases hm : m = 12
  · subst hm
    simp only [beq_self_eq_true, if_pos]
    rw [date_mk_first_ok (y + 1) 1 (by omega) (by omega) (by omega) (by omega)]
    unfold dateSubOneDay
    simp only [gt_iff_lt]
    rw [if_neg (by omega), if_neg (by omega), if_pos (by omega)]
  · have hm12 : (m == 12) = false := by simp [hm]
    simp only [hm12, Bool.false_eq_true, if_neg, reduceCtorEq, not_false_eq_true]
    rw [date_mk_first_ok y (m + 1) h1 (by omega) (by omega) (by omega)]
    unfold dateSubOneDay
    simp only [gt_iff_lt]
    rw [if_neg (by omega), if_pos (by omega)]
    simp

lemma get_range_ok (y m : Nat) (h1 : 1 ≤ y) (h2 : y ≤ 9998)
    (h3 : 1 ≤ m) (h4 : m ≤ 12) :
    get_range_days_of_month y m =
      .ok (List.replicate ((pyWeekday ⟨y, m, 1⟩ + 1) % 7) 0 ++
           (List.range (lastDayValue y m)).map (· + 1)) := by
  unfold get_range_days_of_month
  rw [get_start_ok y m h1 (by omega) h3 h4, get_last_ok y m h1 h2 h3 h4]

lemma get_start_bad_month (y m : Nat) (h : m = 0 ∨ 12 < m) :
    get_start_weekday_of_month y m = .error .valueError := by
  unfold get_start_weekday_of_month date_mk
  rw [if_neg (by rintro ⟨_, _, c3, c4, _⟩; omega)]

lemma get_range_bad_month (y m : Nat) (h : m = 0 ∨ 12 < m) :
    get_range_days_of_month y m = .error .valueError := by
  unfold get_range_days_of_month
  rw [get_start_bad_month y m h]

lemma get_last_bad_month (y m : Nat) (h : 12 < m) :
    get_last_day_of_month y m = .error .valueError := by
  unfold get_last_day_of_month
  have hm12 : (m == 12) = false := by simp; omega
  simp only [hm12, Bool.false_eq_true, if_neg, reduceCtorEq, not_false_eq_true]
  unfold date_mk
  rw [if_neg (by rintro ⟨_, _, c3, c4, _⟩; omega)]

lemma get_last_month_zero (y : Nat) (h1 : 2 ≤ y) (h2 : y ≤ 9999) :
    get_last_day_of_month y 0 = .ok 31 := by
  unfold get_last_day_of_month
  simp only [Nat.zero_add]
  rw [show ((0 : Nat) == 12) = false from rfl]
  simp only [Bool.false_eq_true, if_neg, reduceCtorEq, not_false_eq_true]
  rw [date_mk_first_ok y 1 (by omega) h2 (by omega) (by omega)]
  unfold dateSubOneDay
  simp only [gt_iff_lt]
  rw [if_neg (by omega), if_neg (by omega), if_pos (by omega)]

/-- C3: for every valid year (1..9998) and month (1..12), the month grid
has length `display_start + last_day` with `display_start =
(monday_weekday_of_first + 1) % 7`, its first `display_start` entries are
all `0`, and the remaining entries are exactly `1..last_day` in order. -/
theorem month_grid_structure (year month : Nat)
    (h1 : 1 ≤ year) (h2 : year ≤ 9998) (h3 : 1 ≤ month) (h4 : month ≤ 12) :
    ∃ w l g,
      get_start_weekday_of_month year month = .ok w ∧
      get_last_day_of_month year month = .ok l ∧
      get_range_days_of_month year month = .ok g ∧
      g.length = (w + 1) % 7 + l ∧
      g.take ((w + 1) % 7) = List.replicate ((w + 1) % 7) 0 ∧
      g.drop ((w + 1) % 7) = (List.range l).map (· + 1) := by
  refine ⟨pyWeekday ⟨year, month, 1⟩, lastDayValue year month,
    List.replicate ((pyWeekday ⟨year, month, 1⟩ + 1) % 7) 0 ++
      (List.range (lastDayValue year month)).map (· + 1),
    get_start_ok year month h1 (by omega) h3 h4,
    get_last_ok year month h1 h2 h3 h4,
    get_range_ok year month h1 h2 h3 h4, ?_, ?_, ?_⟩
  · simp
  · simp
  · simp

/-- Witness for C3 at (2024, 3). -/
theorem month_grid_structure_witness :
    ∃ w l g,
      get_start_weekday_of_month 2024 3 = .ok w ∧
      get_last_day_of_month 2024 3 = .ok l ∧
      get_range_days_of_month 2024 3 = .ok g ∧
      g.length = (w + 1) % 7 + l ∧
      g.take ((w + 1) % 7) = List.replicate ((w + 1) % 7) 0 ∧
      g.drop ((w + 1) % 7) = (List.range l).map (· + 1) :=
  month_grid_structure 2024 3 (by decide) (by decide) (by decide) (by decide)

/-- C4: the concrete values of the calendar-grid functions on the inputs
named by the spec: grids for 2024-03, 2024-02, 2025-02, 2024-12 have
exactly 5/4/6/0 leading zeros and lengths 36/33/34/31 respectively;
the first weekday of 2024-12 is 6 (Sunday) and of 2025-02 is 5
(Saturday); February has 29 days in 2024 and 28 in 2025. -/
theorem calendar_concrete_values :
    (get_range_days_of_month 2024 3).map leadingZeros = .ok 5 ∧
    (get_range_days_of_month 2024 3).map List.length = .ok 36 ∧
    (get_range_days_of_month 2024 2).map leadingZeros = .ok 4 ∧
    (get_range_days_of_month 2024 2).map List.length = .ok 33 ∧
    (get_range_days_of_month 2025 2).map leadingZeros = .ok 6 ∧
    (get_range_days_of_month 2025 2).map List.length = .ok 34 ∧
    (get_range_days_of_month 2024 12).map leadingZeros = .ok 0 ∧
    (get_range_days_of_month 2024 12).map List.length = .ok 31 ∧
    get_start_weekday_of_month 2024 12 = .ok 6 ∧
    get_start_weekday_of_month 2025 2 = .ok 5 ∧
    get_last_day_of_month 2024 2 = .ok 29 ∧
    get_last_day_of_month 2025 2 = .ok 28 := by
  decide

/-- C5 counterexample: `get_last_day_of_month` does not reject every
month outside 1..12 — it accepts month 0 and returns 31; moreover, for
the in-range month (9999, 12) it fails with a `ValueError` (the
constructed next-month date overflows year 9999). -/
theorem month_validation_counterexample :
    get_last_day_of_month 2024 0 = .ok 31 ∧
    get_last_day_of_month 9999 12 = .error .valueError := by
  decide

/-- C5 (amended): `get_start_weekday_of_month` and
`get_range_days_of_month` reject every month outside 1..12 with a
`ValueError`; `get_last_day_of_month` rejects every month above 12 but
accepts month 0 for years 2..9999, returning 31; and for every month in
1..12 and every year in 1..9998 all three functions succeed. -/
theorem month_validation :
    (∀ y m, (m = 0 ∨ 12 < m) → get_start_weekday_of_month y m = .error .valueError) ∧
    (∀ y m, (m = 0 ∨ 12 < m) → get_range_days_of_month y m = .error .valueError) ∧
    (∀ y m, 12 < m → get_last_day_of_month y m = .error .valueError) ∧
    (∀ y, 2 ≤ y → y ≤ 9999 → get_last_day_of_month y 0 = .ok 31) ∧
    (∀ y m, 1 ≤ y → y ≤ 9998 → 1 ≤ m → m ≤ 12 →
      (∃ w, get_start_weekday_of_month y m = .ok w) ∧
      (∃ l, get_last_day_of_month y m = .ok l) ∧
      (∃ g, get_range_days_of_month y m = .ok g)) := by
  refine ⟨get_start_bad_month, get_range_bad_month, get_last_bad_month,
    get_last_month_zero, fun y m h1 h2 h3 h4 => ?_⟩
  exact ⟨⟨_, get_start_ok y m h1 (by omega) h3 h4⟩,
    ⟨_, get_last_ok y m h1 h2 h3 h4⟩,
    ⟨_, get_range_ok y m h1 h2 h3 h4⟩⟩

/-- Witness for the amended C5 at concrete inputs. -/
theorem month_validation_witness :
    get_start_weekday_of_month 2024 13 = .error .valueError ∧
    get_range_days_of_month 2024 0 = .error .valueError ∧
    get_last_day_of_month 2024 14 = .error .valueError ∧
    get_last_day_of_month 2024 0 = .ok 31 ∧
    (∃ g, get_range_days_of_month 2025 2 = .ok g) :=
  ⟨month_validation.1 2024 13 (Or.inr (by decide)),
   month_validation.2.1 2024 0 (Or.inl rfl),
   month_validation.2.2.1 2024 14 (by decide),
   month_validation.2.2.2.1 2024 (by decide) (by decide),
   (month_validation.2.2.2.2 2025 2 (by decide) (by decide) (by decide) (by decide)).2.2⟩

/-! ## Persistence schema (`appserver/apps/account/models.py`,
`appserver/apps/calendar/models.py`)

Each SQLModel table is transcribed as a `TableSchema`: its column list
(with `Field(unique=True)` markers, primary keys and foreign keys) and
its `__table_args__` `UniqueConstraint` declarations. -/

structure ColumnSpec where
  name : String
  primaryKey : Bool
  unique : Bool
  foreignKey : Option String
deriving DecidableEq, Repr

structure TableSchema where
  tableName : String
  columns : List ColumnSpec
  tableUniqueConstraints : List (List String)
deriving DecidableEq, Repr

/-- All uniqueness declarations of a table other than the primary key:
single-column `Field(unique=True)` markers plus multi-column
`UniqueConstraint` table args. -/
def uniqueConstraintsOf (t : TableSchema) : List (List String) :=
  (t.columns.filter (·.unique)).map (fun c => [c.name]) ++ t.tableUniqueConstraints

/-- The `users` table of `account/models.py`: `username` is
`Field(unique=True)`; `__table_args__` declares `UniqueConstraint("email",
name="uq_email")`. -/
def users_table : TableSchema :=
  ⟨"users",
   [⟨"id", true, false, none⟩,
    ⟨"username", false, true, none⟩,
    ⟨"email", false, false, none⟩,
    ⟨"display_name", false, false, none⟩,
    ⟨"password", false, false, none⟩,
    ⟨"is_host", false, false, none⟩,
    ⟨"created_at", false, false, none⟩,
    ⟨"updated_at", false, false, none⟩],
   [["email"]]⟩

/-- The `oauth_accounts` table of `account/models.py`. -/
def oauth_accounts_table : TableSchema :=
  ⟨"oauth_accounts",
   [⟨"id", true, false, none⟩,
    ⟨"provider", false, false, none⟩,
    ⟨"provider_account_id", false, false, none⟩,
    ⟨"user_id", false, false, some "users.id"⟩,
    ⟨"created_at", false, false, none⟩,
    ⟨"updated_at", false, false, none⟩],
   [["provider", "provider_account_id"]]⟩

/-- The `calendars` table of `calendar/models.py`: `host_id` is a unique
foreign key to `users.id` (the 1:1 host relation). -/
def calendars_table : TableSchema :=
  ⟨"calendars",
   [⟨"id", true, false, none⟩,
    ⟨"topics", false, false, none⟩,
    ⟨"description", false, false, none⟩,
    ⟨"google_calendar_id", false, false, none⟩,
    ⟨"created_at", false, false, none⟩,
    ⟨"updated_at", false, false, none⟩,
    ⟨"host_id", false, true, some "users.id"⟩],
   []⟩

/-- The `time_slots` table of `calendar/models.py`. -/
def time_slots_table : TableSchema :=
  ⟨"time_slots",
   [⟨"id", true, false, none⟩,
    ⟨"start_time", false, false, none⟩,
    ⟨"end_time", false, false, none⟩,
    ⟨"weekdays", false, false, none⟩,
    ⟨"calendar_id", false, false, some "calendars.id"⟩,
    ⟨"created_at", false, false, none⟩,
    ⟨"updated_at", false, false, none⟩],
   []⟩

/-- The `bookings` table of `calendar/models.py`: columns `id` (primary
key), `when`, `topic`, `description`, the foreign keys `time_slot_id` and
`guest_id`, and the timestamps. The model declares no `__table_args__`
and no `Field(unique=True)` column. -/
def bookings_table : TableSchema :=
  ⟨"bookings",
   [⟨"id", true, false, none⟩,
    ⟨"when", false, false, none⟩,
    ⟨"topic", false, false, none⟩,
    ⟨"description", false, false, none⟩,
    ⟨"time_slot_id", false, false, some "time_slots.id"⟩,
    ⟨"guest_id", false, false, some "users.id"⟩,
    ⟨"created_at", false, false, none⟩,
    ⟨"updated_at", false, false, none⟩],
   []⟩

/-- A column value, for checking uniqueness constraints generically. -/
inductive ColVal where
  | n (v : Nat)
  | s (v : String)
  | d (v : PyDate)
deriving DecidableEq, Repr

/-- A row of the `bookings` table (the data columns of the `Booking`
model; the server-assigned timestamps carry no claim-relevant
information and are omitted). -/
structure BookingRow where
  id : Nat
  when : PyDate
  topic : String
  description : String
  time_slot_id : Nat
  guest_id : Nat
deriving DecidableEq, Repr

/-- Value of a named column of a booking row. -/
def BookingRow.col (b : BookingRow) (c : String) : Option ColVal :=
  if c = "id" then some (.n b.id)
  else if c = "when" then some (.d b.when)
  else if c = "topic" then some (.s b.topic)
  else if c = "description" then some (.s b.description)
  else if c = "time_slot_id" then some (.n b.time_slot_id)
  else if c = "guest_id" then some (.n b.guest_id)
  else none

/-- Two rows collide on a declared uniqueness constraint when they agree
on every column of the constraint. -/
def rowsConflict (cols : List String) (r x : BookingRow) : Bool :=
  cols.all (fun c => x.col c == r.col c)

inductive DbError where
  | integrityError
deriving DecidableEq, Repr

/-- Persistence-layer insert into `bookings`, enforcing exactly what the
schema declares: primary-key uniqueness of `id` plus every constraint in
`uniqueConstraintsOf bookings_table`; a violation surfaces as
`IntegrityError`, otherwise the row is appended. -/
def insertBooking (db : List BookingRow) (r : BookingRow) :
    Except DbError (List BookingRow) :=
  if db.any (fun x => x.id == r.id) then .error .integrityError
  else if db.any (fun x => (uniqueConstraintsOf bookings_table).any
      (fun cols => rowsConflict cols r x)) then .error .integrityError
  else .ok (db ++ [r])

/-- Number of bookings of a state for a given (TimeSlot, when) pair. -/
def bookingsFor (db : List BookingRow) (tsid : Nat) (d : PyDate) : Nat :=
  (db.filter (fun b => b.time_slot_id == tsid && b.when == d)).length

/-- A Monday in March 2024 used by the concrete booking runs. -/
def march4 : PyDate := ⟨2024, 3, 4⟩

/-- First concrete booking: slot 1 on 2024-03-04 by guest 1. -/
def bookingA : BookingRow := ⟨1, march4, "topic A", "desc A", 1, 1⟩

/-- Second concrete booking: a different row (id 2, guest 2) for the same
(TimeSlot, when) pair as `bookingA`. -/
def bookingB : BookingRow := ⟨2, march4, "topic B", "desc B", 1, 2⟩

/-- C1 counterexample: the `bookings` schema declares no unique
constraint on `(time_slot_id, when)`, and a two-insert sequence creates
two committed Booking rows for the same (TimeSlot 1, 2024-03-04) pair —
the at-most-one invariant is not preserved. -/
theorem booking_uniqueness_counterexample :
    ["time_slot_id", "when"] ∉ uniqueConstraintsOf bookings_table ∧
    insertBooking [] bookingA = .ok [bookingA] ∧
    insertBooking [bookingA] bookingB = .ok [bookingA, bookingB] ∧
    bookingsFor [bookingA, bookingB] 1 march4 = 2 := by
  decide

/-- C1 (amended): the `bookings` table declares no uniqueness constraint
at all beyond its primary key — in particular none on `(time_slot_id,
when)` — so a booking insert with a fresh id always succeeds, whatever
rows (including rows with the same `(time_slot_id, when)`) already exist:
the at-most-one-Booking-per-(TimeSlot, when) invariant is not enforced by
the persistence schema. -/
theorem booking_no_unique_constraint :
    uniqueConstraintsOf bookings_table = [] ∧
    ∀ (db : List BookingRow) (r : BookingRow),
      (∀ x ∈ db, x.id ≠ r.id) → insertBooking db r = .ok (db ++ [r]) := by
  constructor
  · rfl
  · intro db r hfresh
    unfold insertBooking
    have h1 : db.any (fun x => x.id == r.id) = false := by
      simp only [List.any_eq_false]
      intro x hx
      simpa using hfresh x hx
    have h2 : db.any (fun x => (uniqueConstraintsOf bookings_table).any
        (fun cols => rowsConflict cols r x)) = false := by
      simp only [List.any_eq_false]
      intro x _
      rw [show uniqueConstraintsOf bookings_table = [] from rfl]
      simp
    rw [h1, h2]
    simp

/-- Witness for the amended C1: the duplicate-pair insert of
`booking_uniqueness_counterexample`, obtained from the general theorem. -/
theorem booking_no_unique_constraint_witness :
    insertBooking [bookingA] bookingB = .ok [bookingA, bookingB] :=
  booking_no_unique_constraint.2 [bookingA] bookingB (by decide)

/-- A row of the `time_slots` table (`TimeSlot` model): time-of-day
bounds in minutes and the recurring weekday indices (0 = Monday … 6 =
Sunday). -/
structure TimeSlotRow where
  id : Nat
  start_time : Nat
  end_time : Nat
  weekdays : List Nat
  calendar_id : Nat
deriving DecidableEq, Repr

/-- Error kinds of the Reservation Transaction (spec §4.4 / §7). -/
inductive ReserveError where
  | notFound
  | validationError
  | duplicateBooking
deriving DecidableEq, Repr

/-- Modelled from the spec: the repository contains no implementation of
the Reservation Transaction — no `reserve` function, endpoint or test
exists under `src/`; only the `Booking` persistence model is declared.
From §4.4: look up the target TimeSlot (a missing reference is a
NotFoundError per §7); reject with a validation error when `when`'s
weekday is not in the TimeSlot's `weekdays` set or `when` is in the past
(relative to `today`); reject with `DuplicateBookingError` when a Booking
for `(time_slot_id, when)` already exists; otherwise persist exactly one
new Booking row. On any error no row is created and the state is
unchanged (§4.4 side effects). -/
def reserve (slots : List TimeSlotRow) (db : List BookingRow)
    (time_slot_id guest_id : Nat) (whenD : PyDate) (topic details : String)
    (today : PyDate) (new_id : Nat) :
    Except ReserveError (List BookingRow × BookingRow) :=
  match slots.find? (fun s => s.id == time_slot_id) with
  | none => .error .notFound
  | some slot =>
    if !(slot.weekdays.contains (pyWeekday whenD)) then .error .validationError
    else if toOrdinal whenD < toOrdinal today then .error .validationError
    else if db.any (fun b => b.time_slot_id == time_slot_id && b.when == whenD) then
      .error .duplicateBooking
    else
      let row : BookingRow := ⟨new_id, whenD, topic, details, time_slot_id, guest_id⟩
      .ok (db ++ [row], row)

/-- C2: `reserve` on a date whose weekday is not in the target TimeSlot's
`weekdays` set is rejected with a `ValidationError`; the error result
carries no successor state, so no Booking is created and the booking
state is unchanged. -/
theorem reserve_weekday_validation
    (slots : List TimeSlotRow) (db : List BookingRow)
    (time_slot_id guest_id new_id : Nat) (whenD today : PyDate)
    (topic details : String) (slot : TimeSlotRow)
    (hfind : slots.find? (fun s => s.id == time_slot_id) = some slot)
    (hwd : slot.weekdays.contains (pyWeekday whenD) = false) :
    reserve slots db time_slot_id guest_id whenD topic details today new_id =
      .error .validationError := by
  unfold reserve
  rw [hfind]
  have hwd2 : pyWeekday whenD ∉ slot.weekdays := by simpa using hwd
  simp [hwd2]

/-- Witness for C2: a slot recurring only on Mondays (`weekdays = [0]`)
rejects 2024-03-03, a Sunday (weekday 6). -/
theorem reserve_weekday_validation_witness :
    reserve [⟨1, 540, 600, [0], 1⟩] [] 1 2 ⟨2024, 3, 3⟩ "t" "d" ⟨2024, 3, 1⟩ 1 =
      .error .validationError :=
  reserve_weekday_validation [⟨1, 540, 600, [0], 1⟩] [] 1 2 1 ⟨2024, 3, 3⟩
    ⟨2024, 3, 1⟩ "t" "d" ⟨1, 540, 600, [0], 1⟩ (by decide) (by decide)

/-! ## Account endpoints (`appserver/apps/account/endpoints.py`),
session dependencies (`deps.py`) and the calendar endpoint
(`appserver/apps/calendar/endpoints.py`) -/

/-- A row of the `users` table (`User` model): the data columns; the
server-assigned timestamps carry no claim-relevant information and are
omitted. The `password` column stores whatever string is assigned to it —
the model declares no hashing validator (its only validator fills in a
missing `display_name`). -/
structure UserRow where
  id : Nat
  username : String
  email : String
  display_name : String
  password : String
  is_host : Bool
deriving DecidableEq, Repr

/-- A validated `SignupPayload` (`account/schemas.py`): its
`verify_password` model validator has already checked
`password = password_again`, and `generate_display_name` has already
filled a missing display name, so payload values here are the
post-validation ones. -/
structure SignupPayload where
  username : String
  email : String
  display_name : String
  password : String
  password_again : String
deriving DecidableEq, Repr

/-- Error responses of the account/calendar endpoints: the custom
`HTTPException` subclasses of `account/exceptions.py`, the plain 404 of
`user_detail`, pydantic validation errors, and the unhandled Python
exceptions (`AttributeError`, `NameError`) that surface as 500s. -/
inductive HttpError where
  | notFound404
  | duplicatedUsername422
  | duplicatedEmail422
  | validationError422
  | invalidToken401
  | expiredToken401
  | passwordMismatch401
  | attributeError500
  | nameError500
deriving DecidableEq, Repr

/-- `signup` (`account/endpoints.py`): reject a payload whose passwords
differ (the `SignupPayload` validator raises a pydantic
`ValidationError` before the endpoint body runs); reject a duplicate
username, then a duplicate email, with the custom 422 errors; otherwise
build the `User` with `User.model_validate(payload.model_dump())` — the
`password` column receives `payload.password` verbatim, no hash is
computed (`hash_password` of `utils.py` is never called here) — and
commit it. Returns the new table state and the created row. -/
def signup (db : List UserRow) (payload : SignupPayload) (new_id : Nat) :
    Except HttpError (List UserRow × UserRow) :=
  if payload.password ≠ payload.password_again then .error .validationError422
  else if db.any (fun u => u.username == payload.username) then
    .error .duplicatedUsername422
  else if db.any (fun u => u.email == payload.email) then
    .error .duplicatedEmail422
  else
    let user : UserRow :=
      ⟨new_id, payload.username, payload.email, payload.display_name,
       payload.password, false⟩
    .ok (db ++ [user], user)

/-- `user_detail` (`account/endpoints.py`): select the user by username;
404 when absent. The route's response model is the return annotation —
the full `User` model — so the row itself, every column included, is the
response. -/
def user_detail (db : List UserRow) (username : String) :
    Except HttpError UserRow :=
  match db.find? (fun u => u.username == username) with
  | some user => .ok user
  | none => .error .notFound404

/-- The decoded JWT payload `create_access_token`/`decode_token` use:
the subject (username) and the `exp` claim in epoch seconds. -/
structure TokenClaims where
  sub : String
  exp : Int
deriving DecidableEq, Repr

/-- The `auth_token` cookie as `get_user` sees it: absent/empty
(`not auth_token`), present but not a JWT signed with `SECRET_KEY`
(`decode_token` raises `JWTError`), or a well-formed token carrying its
claims. -/
inductive AuthToken where
  | missing
  | malformed
  | signed (claims : TokenClaims)
deriving DecidableEq, Repr

/-- Errors of `jose.jwt.decode`: a malformed token or bad signature
raises `JWTError`; an `exp` claim before the current time raises
`ExpiredSignatureError` (subclass of `JWTError`). -/
inductive DecodeError where
  | jwtError
  | expiredSignature
deriving DecidableEq, Repr

/-- `decode_token` (`account/utils.py`): `jwt.decode(token, SECRET_KEY,
algorithms=[ALGORITHM])`. python-jose verifies the registered claims by
default (`verify_exp: True`, zero leeway): a well-formed token whose
`exp` lies strictly before the current time raises
`ExpiredSignatureError`; otherwise the payload is returned. `now` is the
wall clock the library reads internally, passed explicitly here. -/
def decode_token (t : AuthToken) (now : Int) : Except DecodeError TokenClaims :=
  match t with
  | .missing => .error .jwtError
  | .malformed => .error .jwtError
  | .signed claims =>
    if claims.exp < now then .error .expiredSignature
    else .ok claims

def ACCESS_TOKEN_EXPIRE_MINUTES : Int := 30

/-- `get_user` (`account/deps.py`): no token yields no user. Any
exception from `decode_token` — `JWTError` and `ExpiredSignatureError`
alike, so in particular every expired token — is caught by
`except Exception` and re-raised as `InvalidTokenError` (HTTP 401).
After a successful decode the source runs its own check
`now + timedelta(minutes=ACCESS_TOKEN_EXPIRE_MINUTES) < expires_at`,
which fires only when the token expires MORE than 30 minutes in the
future (never for a token the library accepted as non-expired); on that
branch the source executes `raise ExpiredTokenError() from e` where `e`
is no longer bound (the `except` block erased it), so the branch
actually raises `NameError` (a 500). Otherwise the user is looked up by
the token's subject. -/
def get_user (auth_token : AuthToken) (db : List UserRow) (now : Int) :
    Except HttpError (Option UserRow) :=
  match auth_token with
  | .missing => .ok none
  | t =>
    match decode_token t now with
    | .error _ => .error .invalidToken401
    | .ok decoded =>
      if now + ACCESS_TOKEN_EXPIRE_MINUTES * 60 < decoded.exp then
        .error .nameError500
      else
        .ok (db.find? (fun u => u.username == decoded.sub))

/-- `get_current_user` (`account/deps.py`): delegate to `get_user` and
raise `UserNotFoundError` when it produced no user. -/
def get_current_user (auth_token : AuthToken) (db : List UserRow) (now : Int) :
    Except HttpError UserRow :=
  match get_user auth_token db now with
  | .error e => .error e
  | .ok none => .error .notFound404
  | .ok (some u) => .ok u

/-- A row of the `calendars` table (`Calendar` model), timestamps
omitted. -/
structure CalendarRow where
  id : Nat
  topics : List String
  description : String
  google_calendar_id : String
  host_id : Nat
deriving DecidableEq, Repr

/-- Modelled from the spec: `appserver/apps/calendar/schemas.py` (the
`CalendarOut` schema) is absent from `src/`; per the spec, non-host
viewers "see a restricted view" without the external calendar id. -/
structure CalendarOut where
  topics : List String
  description : String
deriving DecidableEq, Repr

/-- Modelled from the spec: `appserver/apps/calendar/schemas.py` (the
`CalendarDetailOut` schema) is absent from `src/`; per the spec the host
"sees full detail including external calendar id". -/
structure CalendarDetailOut where
  topics : List String
  description : String
  google_calendar_id : String
deriving DecidableEq, Repr

/-- The two response shapes of `host_calendar_detail`. -/
inductive CalendarResponse where
  | restricted (c : CalendarOut)
  | detail (c : CalendarDetailOut)
deriving DecidableEq, Repr

/-- `host_calendar_detail` (`calendar/endpoints.py`): select the host by
username — when no such user exists, `host` is `None` and building the
second query dereferences `host.id`, raising `AttributeError` (a 500,
not a 404). Then select the calendar by `host.id`. The viewer branch
`if user is not None and user.id == host_id` reads the name `host_id`,
which is defined nowhere in the function, so every request with an
authenticated viewer — the host included — raises `NameError` (a 500);
only the anonymous branch survives and returns the restricted
`CalendarOut` view (pydantic rejects `model_validate(None)` when the
host has no calendar). -/
def host_calendar_detail (host_username : String) (user : Option UserRow)
    (users : List UserRow) (calendars : List CalendarRow) :
    Except HttpError CalendarResponse :=
  match users.find? (fun u => u.username == host_username) with
  | none => .error .attributeError500
  | some host =>
    let calendar := calendars.find? (fun c => c.host_id == host.id)
    match user with
    | some _ => .error .nameError500
    | none =>
      match calendar with
      | none => .error .validationError422
      | some c => .ok (.restricted ⟨c.topics, c.description⟩)

/-- The signup request used in the concrete account runs. -/
def alicePayload : SignupPayload :=
  ⟨"alice234", "alice@example.com", "Alice Kim", "plain-secret-1", "plain-secret-1"⟩

/-- The row `signup` stores for `alicePayload`: the `password` column
holds the submitted plain text. -/
def aliceRow : UserRow :=
  ⟨1, "alice234", "alice@example.com", "Alice Kim", "plain-secret-1", false⟩

/-- C6 counterexample: signing up with password `plain-secret-1` stores
exactly that string — not a hash — in the `password` column, and the
user-detail lookup returns the full stored row, the password credential
included. -/
theorem password_handling_counterexample :
    signup [] alicePayload 1 = .ok ([aliceRow], aliceRow) ∧
    aliceRow.password = alicePayload.password ∧
    user_detail [aliceRow] "alice234" = .ok aliceRow ∧
    aliceRow.password = "plain-secret-1" := by
  decide

/-- C6 (amended): for every successful signup the stored `password`
column is the submitted password itself (no hashing), and the
user-detail response is the full stored `User` row — its `password`
column included — because the route's response model is the `User`
model. -/
theorem password_stored_and_exposed :
    (∀ (db : List UserRow) (payload : SignupPayload) (new_id : Nat)
        (db2 : List UserRow) (u : UserRow),
      signup db payload new_id = .ok (db2, u) →
        u.password = payload.password ∧ u ∈ db2) ∧
    (∀ (db : List UserRow) (username : String) (u : UserRow),
      user_detail db username = .ok u → u ∈ db) := by
  constructor
  · intro db payload new_id db2 u h
    unfold signup at h
    split at h
    · cases h
    · split at h
      · cases h
      · split at h
        · cases h
        · simp only [Except.ok.injEq, Prod.mk.injEq] at h
          obtain ⟨hdb, hu⟩ := h
          subst hdb
          subst hu
          exact ⟨rfl, by simp⟩
  · intro db username u h
    unfold user_detail at h
    cases hf : db.find? (fun x => x.username == username) with
    | none => rw [hf] at h; cases h
    | some v =>
      rw [hf] at h
      cases h
      exact List.mem_of_find?_eq_some hf

/-- Witness for the amended C6 at the concrete `alicePayload` run. -/
theorem password_stored_and_exposed_witness :
    (aliceRow.password = alicePayload.password ∧ aliceRow ∈ [aliceRow]) ∧
    aliceRow ∈ [aliceRow] :=
  ⟨password_stored_and_exposed.1 [] alicePayload 1 [aliceRow] aliceRow (by decide),
   password_stored_and_exposed.2 [aliceRow] "alice234" aliceRow (by decide)⟩

/-- The host user of the concrete calendar/session runs. -/
def hostUser : UserRow :=
  ⟨1, "puddingcamp", "host@example.com", "Pudding Camp", "pw", true⟩

/-- The host's calendar. -/
def hostCalendar : CalendarRow :=
  ⟨1, ["FastAPI"], "calendar desc", "gcal-123", 1⟩

/-- The authentication-error kinds of the error taxonomy: the HTTP 401
credential rejections of `account/exceptions.py` (`InvalidTokenError`,
`ExpiredTokenError`, `PasswordMismatchError`). -/
def isAuthenticationError : HttpError → Bool
  | .invalidToken401 => true
  | .expiredToken401 => true
  | .passwordMismatch401 => true
  | _ => false

/-- `decode_token` on a well-formed signed token, unfolded. -/
lemma decode_token_signed (claims : TokenClaims) (now : Int) :
    decode_token (.signed claims) now =
      if claims.exp < now then .error .expiredSignature else .ok claims := rfl

/-- The success branch of `get_user` on a decodable token, unfolded. -/
lemma get_user_signed (claims : TokenClaims) (db : List UserRow) (now : Int) :
    get_user (.signed claims) db now =
      match decode_token (.signed claims) now with
      | .error _ => .error .invalidToken401
      | .ok decoded =>
        if now + ACCESS_TOKEN_EXPIRE_MINUTES * 60 < decoded.exp then
          .error .nameError500
        else .ok (db.find? (fun x => x.username == decoded.sub)) := rfl

/-- C7: every expired token (`exp` before `now`) is rejected by
`get_user`/`get_current_user` with `InvalidTokenError`, an
authentication error — `decode_token` (jose `jwt.decode`) verifies the
`exp` claim by default and its `ExpiredSignatureError` is converted by
the `except` block; and a well-formed non-expired token for an existing
user never produces an authentication error: it is accepted whenever its
expiry lies within the 30-minute window (in particular for every token
the app itself issues), and the only other outcome is the `NameError`
500 of the broken in-function check, not an authentication error. -/
theorem session_boundary_expiry (claims : TokenClaims) (db : List UserRow)
    (now : Int) (u : UserRow) :
    (claims.exp < now →
      get_user (.signed claims) db now = .error .invalidToken401 ∧
      get_current_user (.signed claims) db now = .error .invalidToken401 ∧
      isAuthenticationError .invalidToken401 = true) ∧
    (now ≤ claims.exp → db.find? (fun x => x.username == claims.sub) = some u →
      (∀ e, get_user (.signed claims) db now = .error e →
        isAuthenticationError e = false) ∧
      (∀ e, get_current_user (.signed claims) db now = .error e →
        isAuthenticationError e = false)) ∧
    (now ≤ claims.exp → claims.exp ≤ now + ACCESS_TOKEN_EXPIRE_MINUTES * 60 →
      db.find? (fun x => x.username == claims.sub) = some u →
      get_user (.signed claims) db now = .ok (some u) ∧
      get_current_user (.signed claims) db now = .ok u) := by
  refine ⟨?_, ?_, ?_⟩
  · intro hlt
    have hdec : decode_token (.signed claims) now = .error .expiredSignature := by
      rw [decode_token_signed, if_pos hlt]
    have hg : get_user (.signed claims) db now = .error .invalidToken401 := by
      rw [get_user_signed, hdec]
    exact ⟨hg, by unfold get_current_user; rw [hg], rfl⟩
  · intro hle hfind
    have hdec : decode_token (.signed claims) now = .ok claims := by
      rw [decode_token_signed, if_neg (by omega)]
    by_cases hbig : now + ACCESS_TOKEN_EXPIRE_MINUTES * 60 < claims.exp
    · have hg : get_user (.signed claims) db now = .error .nameError500 := by
        rw [get_user_signed, hdec]
        simp only [if_pos hbig]
      constructor
      · intro e he
        rw [hg] at he
        cases he
        rfl
      · intro e he
        unfold get_current_user at he
        rw [hg] at he
        cases he
        rfl
    · have hg : get_user (.signed claims) db now = .ok (some u) := by
        rw [get_user_signed, hdec]
        simp only [if_neg hbig]
        rw [hfind]
      constructor
      · intro e he
        rw [hg] at he
        cases he
      · intro e he
        unfold get_current_user at he
        rw [hg] at he
        cases he
  · intro hle hbound hfind
    have hdec : decode_token (.signed claims) now = .ok claims := by
      rw [decode_token_signed, if_neg (by omega)]
    have hnb : ¬ (now + ACCESS_TOKEN_EXPIRE_MINUTES * 60 < claims.exp) := by omega
    have hg : get_user (.signed claims) db now = .ok (some u) := by
      rw [get_user_signed, hdec]
      simp only [if_neg hnb]
      rw [hfind]
    exact ⟨hg, by unfold get_current_user; rw [hg]⟩

/-- Witness for C7: the expired token (`exp` 1000, `now` 100000) for
`puddingcamp` is rejected with `InvalidTokenError`, and a fresh token
(`exp` 101000, within the 30-minute window) is accepted. -/
theorem session_boundary_expiry_witness :
    (get_user (.signed ⟨"puddingcamp", 1000⟩) [hostUser] 100000 = .error .invalidToken401 ∧
     get_current_user (.signed ⟨"puddingcamp", 1000⟩) [hostUser] 100000 = .error .invalidToken401 ∧
     isAuthenticationError .invalidToken401 = true) ∧
    (get_user (.signed ⟨"puddingcamp", 101000⟩) [hostUser] 100000 = .ok (some hostUser) ∧
     get_current_user (.signed ⟨"puddingcamp", 101000⟩) [hostUser] 100000 = .ok hostUser) :=
  ⟨(session_boundary_expiry ⟨"puddingcamp", 1000⟩ [hostUser] 100000 hostUser).1
     (by decide),
   (session_boundary_expiry ⟨"puddingcamp", 101000⟩ [hostUser] 100000 hostUser).2.2
     (by decide) (by decide) (by decide)⟩

/-- C8 counterexample: `user_detail` on an unknown username does surface
a 404, but `host_calendar_detail` on an unknown host username raises
`AttributeError` (the `None` host's `.id` is dereferenced) — a 500, not
a 404-equivalent rejection. -/
theorem unknown_reference_counterexample :
    user_detail [] "ghost" = .error .notFound404 ∧
    host_calendar_detail "ghost" none [] [] = .error .attributeError500 := by
  decide

/-- C8 (amended): a lookup of a nonexistent user via `user_detail`
surfaces the 404 NotFound rejection, but `host_calendar_detail` with a
nonexistent host username always fails with `AttributeError` (a 500)
instead of a 404. -/
theorem unknown_reference_errors :
    (∀ (db : List UserRow) (username : String),
      db.find? (fun u => u.username == username) = none →
        user_detail db username = .error .notFound404) ∧
    (∀ (host_username : String) (user : Option UserRow)
        (users : List UserRow) (calendars : List CalendarRow),
      users.find? (fun u => u.username == host_username) = none →
        host_calendar_detail host_username user users calendars =
          .error .attributeError500) := by
  constructor
  · intro db username h
    unfold user_detail
    rw [h]
  · intro host_username user users calendars h
    unfold host_calendar_detail
    rw [h]

/-- Witness for the amended C8 on empty tables. -/
theorem unknown_reference_errors_witness :
    user_detail [] "ghost2" = .error .notFound404 ∧
    host_calendar_detail "ghost2" none [] [] = .error .attributeError500 :=
  ⟨unknown_reference_errors.1 [] "ghost2" (by decide),
   unknown_reference_errors.2 "ghost2" none [] [] (by decide)⟩

/-- C9: viewer-dependent calendar views are broken for every
authenticated viewer. The host viewing their own calendar gets
`NameError` (the branch `if user is not None and user.id == host_id`
reads the undefined name `host_id`), as does any other authenticated
viewer; only the anonymous request returns the restricted view. The
repo's own tests expect `CalendarDetailOut` for the host and
`CalendarOut` for a guest. -/
theorem host_view_raises_nameError :
    host_calendar_detail "puddingcamp" (some hostUser) [hostUser] [hostCalendar] =
      .error .nameError500 ∧
    host_calendar_detail "puddingcamp" (some aliceRow) [hostUser, aliceRow] [hostCalendar] =
      .error .nameError500 ∧
    host_calendar_detail "puddingcamp" none [hostUser] [hostCalendar] =
      .ok (.restricted ⟨["FastAPI"], "calendar desc"⟩) := by
  decide

/-- A value of a PATCH payload field: `User` columns are strings or the
`is_host` boolean. -/
inductive FieldVal where
  | s (v : String)
  | b (v : Bool)
deriving DecidableEq, Repr

/-- Application of one entry of the SQL `UPDATE ... VALUES` dict to a
user row. -/
def applyField (u : UserRow) (kv : String × FieldVal) : UserRow :=
  match kv with
  | ("username", .s v) => { u with username := v }
  | ("email", .s v) => { u with email := v }
  | ("display_name", .s v) => { u with display_name := v }
  | ("password", .s v) => { u with password := v }
  | ("is_host", .b v) => { u with is_host := v }
  | _ => u

/-- `update_user` (`account/endpoints.py`). The payload is the finite
list of fields the PATCH request actually set — pydantic
`model_dump(exclude_unset=True, ...)` drops every unset field — possibly
including `password`/`password_again` entries (`UpdateUserPayload` is
absent from `src/`, so the payload shape is modelled from the spec as
arbitrary named `User` fields). The endpoint source then excludes
`password` and `password_again` from the dump and issues
`update(User).where(username = current).values(**updated_data)`: only
the remaining named columns are written. -/
def update_user (user : UserRow) (payload : List (String × FieldVal)) : UserRow :=
  let updated_data :=
    payload.filter (fun kv => !(kv.1 == "password") && !(kv.1 == "password_again"))
  updated_data.foldl applyField user

/-- Read a named updatable column of a user row. -/
def getF (u : UserRow) (f : String) : Option FieldVal :=
  if f = "username" then some (.s u.username)
  else if f = "email" then some (.s u.email)
  else if f = "display_name" then some (.s u.display_name)
  else if f = "password" then some (.s u.password)
  else if f = "is_host" then some (.b u.is_host)
  else none

lemma applyField_preserves (u : UserRow) (kv : String × FieldVal) (f : String)
    (hne : kv.1 ≠ f) : getF (applyField u kv) f = getF u f := by
  unfold applyField
  split
  · have h1 : ¬ f = "username" := fun h => hne (by rw [h])
    simp [getF, h1]
  · have h1 : ¬ f = "email" := fun h => hne (by rw [h])
    simp [getF, h1]
  · have h1 : ¬ f = "display_name" := fun h => hne (by rw [h])
    simp [getF, h1]
  · have h1 : ¬ f = "password" := fun h => hne (by rw [h])
    simp [getF, h1]
  · have h1 : ¬ f = "is_host" := fun h => hne (by rw [h])
    simp [getF, h1]
  · rfl

lemma foldl_applyField_preserves (l : List (String × FieldVal)) (u : UserRow)
    (f : String) (h : ∀ kv ∈ l, kv.1 ≠ f) :
    getF (l.foldl applyField u) f = getF u f := by
  induction l generalizing u with
  | nil => rfl
  | cons kv t ih =>
    rw [List.foldl_cons,
      ih (applyField u kv) (fun x hx => h x (List.mem_cons_of_mem kv hx)),
      applyField_preserves u kv f (h kv (List.mem_cons_self kv t))]

lemma applyField_id (u : UserRow) (kv : String × FieldVal) :
    (applyField u kv).id = u.id := by
  unfold applyField
  split <;> rfl

lemma foldl_applyField_id (l : List (String × FieldVal)) (u : UserRow) :
    (l.foldl applyField u).id = u.id := by
  induction l generalizing u with
  | nil => rfl
  | cons kv t ih => rw [List.foldl_cons, ih (applyField u kv), applyField_id]

/-- C10: the PATCH self-update never writes the `password` column — even
when the payload carries `password`/`password_again` entries — and every
updatable `User` field with no entry in the payload keeps its stored
value (and the row id is never touched). -/
theorem update_user_frame (user : UserRow) (payload : List (String × FieldVal)) :
    (update_user user payload).password = user.password ∧
    (update_user user payload).id = user.id ∧
    ∀ f : String, (∀ v : FieldVal, (f, v) ∉ payload) →
      getF (update_user user payload) f = getF user f := by
  refine ⟨?_, ?_, ?_⟩
  · have h := foldl_applyField_preserves
      (payload.filter (fun kv => !(kv.1 == "password") && !(kv.1 == "password_again")))
      user "password" ?_
    · simp only [getF] at h
      simp only [update_user]
      simpa using h
    · intro kv hkv
      have hp := List.of_mem_filter hkv
      simp only [Bool.and_eq_true, Bool.not_eq_eq_eq_not, Bool.not_true, beq_eq_false_iff_ne] at hp
      exact hp.1
  · simp only [update_user]
    exact foldl_applyField_id _ user
  · intro f hf
    simp only [update_user]
    apply foldl_applyField_preserves
    intro kv hkv heq
    apply hf kv.2
    have hkv2 : kv ∈ payload := List.mem_of_mem_filter hkv
    have : (f, kv.2) = kv := by rw [← heq]
    rw [this]
    exact hkv2

/-- Witness for C10: a payload setting `password` and `display_name`
leaves the stored password, the id and the untouched `email` field
unchanged. -/
theorem update_user_frame_witness :
    (update_user aliceRow [("password", .s "other"), ("display_name", .s "New Name")]).password
      = aliceRow.password ∧
    (update_user aliceRow [("password", .s "other"), ("display_name", .s "New Name")]).id
      = aliceRow.id ∧
    getF (update_user aliceRow [("password", .s "other"), ("display_name", .s "New Name")]) "email"
      = getF aliceRow "email" := by
  refine ⟨(update_user_frame aliceRow _).1, (update_user_frame aliceRow _).2.1,
    (update_user_frame aliceRow _).2.2 "email" ?_⟩
  intro v hv
  rcases List.mem_cons.mp hv with h | h
  · have hfst : "email" = "password" := congrArg Prod.fst h
    exact absurd hfst (by decide)
  · rcases List.mem_cons.mp h with h2 | h2
    · have hfst : "email" = "display_name" := congrArg Prod.fst h2
      exact absurd hfst (by decide)
    · exact absurd h2 (List.not_mem_nil _)
